import Mathlib

/-!
Verification of the analysis-to-structured-record pipeline of the lab-view
backend (services/llm_analyzer.py, services/data_formatter.py,
utils/validators.py), as a shallow embedding.

Modelling conventions:
* Python dict/list/str/float values flowing through the pipeline are embedded
  as the inductive `Json` below; numbers are `ℚ` (the code never relies on
  float rounding error, only on arithmetic and comparisons).
* Code that can raise is embedded in `Except String α`; the string is the
  Python exception class or `ValidationError` message.  `try/except` blocks
  of the source become `match` on the `Except` value.
* `json.loads` is an external library; it is a parameter
  `parse : String → Option Json` of the response parser.
* `datetime` values are `Date` triples; `datetime - timedelta(days=n)` is `n`
  iterations of the calendar predecessor function `prevDay`, and
  `strftime "%Y-%m"` is the `(year, month)` label `fmtYM`.
* `np.random.random()` draws and the uuid-generated ids are injected through
  the `Env` structure (the sole nondeterminism of the formatter).
-/

namespace MedLab

/-- Embedded Python/JSON value universe for the pipeline's duck-typed dicts. -/
inductive Json where
  | null : Json
  | bool : Bool → Json
  | num : ℚ → Json
  | str : String → Json
  | arr : List Json → Json
  | obj : List (String × Json) → Json

/-- First binding of a key in an embedded dict (Python dicts have unique keys). -/
def jsonLookup (fs : List (String × Json)) (k : String) : Option Json :=
  (fs.find? (fun p => p.1 == k)).map (·.2)

/-- Python `d.get(k, default)`; raises `AttributeError` on non-dicts. -/
def pyDictGet : Json → String → Json → Except String Json
  | .obj fs, k, d => .ok ((jsonLookup fs k).getD d)
  | _, _, _ => .error "AttributeError"

/-- Field of an embedded dict, for stating properties of outputs. -/
def Json.getField : Json → String → Option Json
  | .obj fs, k => jsonLookup fs k
  | _, _ => none

/-- Top-level keys of an embedded dict (empty for non-dicts). -/
def Json.topKeys : Json → List String
  | .obj fs => fs.map (·.1)
  | _ => []

/-- Python truthiness (`if x:`) on the embedded values. -/
def Json.pyFalsy : Json → Bool
  | .null => true
  | .bool b => !b
  | .num q => q == 0
  | .str s => s == ""
  | .arr xs => xs.isEmpty
  | .obj fs => fs.isEmpty

/-- ASCII lower-casing of one character (model of Python `str.lower` on the
ASCII field values the pipeline handles). -/
def lowerChar (c : Char) : Char :=
  if 'A' ≤ c ∧ c ≤ 'Z' then Char.ofNat (c.toNat + 32) else c

/-- Model of Python `str.lower()`. -/
def strLower (s : String) : String := String.mk (s.toList.map lowerChar)

/-- Model of Python `str.strip()`: whitespace removed from both ends. -/
def strTrim (s : String) : String :=
  String.mk ((s.toList.dropWhile Char.isWhitespace).reverse.dropWhile Char.isWhitespace).reverse

/-- Model of the specific call `str.replace(" ", "")`: drop all spaces. -/
def removeSpaces (s : String) : String :=
  String.mk (s.toList.filter (fun c => !(c == ' ')))

/-- Numeric value of a decimal digit string. -/
def natOfDigits (cs : List Char) : Nat :=
  cs.foldl (fun a c => 10 * a + (c.toNat - 48)) 0

/-- Model of Python `float(s)` on a string literal: optional sign, decimal
digits with an optional fractional part (the exponent/inf/nan forms the
source never receives are not modelled).  `none` models `ValueError`. -/
def parseFloatLit (s : String) : Option ℚ :=
  let cs := (strTrim s).toList
  let signed : ℚ × List Char :=
    match cs with
    | '-' :: t => (-1, t)
    | '+' :: t => (1, t)
    | t => (1, t)
  let intPart := signed.2.takeWhile Char.isDigit
  let rest := signed.2.dropWhile Char.isDigit
  match rest with
  | [] =>
      if intPart.isEmpty then none
      else some (signed.1 * natOfDigits intPart)
  | '.' :: frac =>
      if frac.all Char.isDigit ∧ ¬(intPart.isEmpty ∧ frac.isEmpty) then
        some (signed.1 * ((natOfDigits intPart : ℚ) +
          (natOfDigits frac : ℚ) / (10 : ℚ) ^ frac.length))
      else none
  | _ => none

/-- Model of Python `int(s)` on a string literal: optional sign, digits only. -/
def parseIntLit (s : String) : Option Int :=
  let cs := (strTrim s).toList
  let signed : Int × List Char :=
    match cs with
    | '-' :: t => (-1, t)
    | '+' :: t => (1, t)
    | t => (1, t)
  if signed.2.isEmpty ∨ ¬signed.2.all Char.isDigit then none
  else some (signed.1 * natOfDigits signed.2)

/-- Truncation toward zero, as Python `int()` applied to a float. -/
def ratTrunc (q : ℚ) : Int := if 0 ≤ q then ⌊q⌋ else ⌈q⌉

/-- Model of Python `float(v)` with `ValueError`/`TypeError` folded into
`none` (the callers catch exactly those). -/
def pyFloat : Json → Option ℚ
  | .num q => some q
  | .bool b => some (if b then 1 else 0)
  | .str s => parseFloatLit s
  | _ => none

/-- Model of Python `int(v)` with `ValueError`/`TypeError` folded to `none`. -/
def pyInt : Json → Option Int
  | .num q => some (ratTrunc q)
  | .bool b => some (if b then 1 else 0)
  | .str s => parseIntLit s
  | _ => none

/-- Regex `^\d{4}-\d{2}-\d{2}$` of validators.py (with `$` also accepting a
single trailing newline, as Python `re` does). -/
def isYMDFormat (s : String) : Bool :=
  match s.toList with
  | [a, b, c, d, '-', e, f, '-', g, h] => [a, b, c, d, e, f, g, h].all Char.isDigit
  | [a, b, c, d, '-', e, f, '-', g, h, '\n'] => [a, b, c, d, e, f, g, h].all Char.isDigit
  | _ => false

/-! ## utils/validators.py — Validators.validate_patient_info

The source is four straight-line blocks (name, age, gender, dateOfBirth),
each of which can raise; they are embedded as four `check*` functions
sequenced by `validatePatientInfo`. -/

/-- Name block of `validate_patient_info` (lines 28-32). -/
def checkName (p : Json) : Except String String :=
  match p with
  | .obj fs =>
    match (jsonLookup fs "name").getD (.str "") with
    | .str s =>
      let name := strTrim s
      if name ≠ "" ∧ 100 < name.length then .error "Patient name too long"
      else .ok name
    | _ => .error "AttributeError"
  | _ => .error "AttributeError"

/-- Age block of `validate_patient_info` (lines 34-45): `int(age)` with
`ValueError`/`TypeError` re-raised as `ValidationError("Age must be a
number")`, and the range check raising `ValidationError("Invalid age")`
(which escapes the `except (ValueError, TypeError)` handler). -/
def checkAge (p : Json) : Except String Json :=
  match p with
  | .obj fs =>
    match (jsonLookup fs "age").getD .null with
    | .null => .ok .null
    | av =>
      match pyInt av with
      | none => .error "Age must be a number"
      | some a => if a < 0 ∨ 150 < a then .error "Invalid age" else .ok (.num a)
  | _ => .error "AttributeError"

/-- Gender block of `validate_patient_info` (lines 47-51):
`.lower().strip()`, then the enum check raising `ValidationError`. -/
def checkGender (p : Json) : Except String Json :=
  match p with
  | .obj fs =>
    match (jsonLookup fs "gender").getD (.str "") with
    | .str s =>
      let g := strTrim (strLower s)
      if g ≠ "" ∧ ¬(["male", "female", "m", "f"].contains g) then
        .error "Invalid gender"
      else .ok (if g = "" then .null else .str g)
    | _ => .error "AttributeError"
  | _ => .error "AttributeError"

/-- Date block of `validate_patient_info` (lines 53-58): falsy values are
passed through unchecked; non-strings make `re.match` raise `TypeError`. -/
def checkDob (p : Json) : Except String Json :=
  match p with
  | .obj fs =>
    let av := (jsonLookup fs "dateOfBirth").getD .null
    if av.pyFalsy then .ok av
    else
      match av with
      | .str s =>
          if isYMDFormat s then .ok av
          else .error "Invalid date format. Use YYYY-MM-DD"
      | _ => .error "TypeError"
  | _ => .error "AttributeError"

/-- `Validators.validate_patient_info` (validators.py lines 23-60): the four
field blocks in source order; any raise aborts the whole record. -/
def validatePatientInfo (p : Json) : Except String Json :=
  match checkName p with
  | .error e => .error e
  | .ok nm =>
    match checkAge p with
    | .error e => .error e
    | .ok ageJ =>
      match checkGender p with
      | .error e => .error e
      | .ok gJ =>
        match checkDob p with
        | .error e => .error e
        | .ok dobJ =>
          .ok (.obj [("name", .str nm), ("age", ageJ), ("gender", gJ),
                     ("dateOfBirth", dobJ)])

/-! ## utils/validators.py — Validators.validate_lab_results -/

/-- One iteration of the `validate_lab_results` loop (lines 67-99).
`.ok none` models `continue` (row dropped); `.error` models an uncaught
exception (`.strip()`/`.lower()` on non-strings); only the `float(...)`
conversion is wrapped in a `try/except` in the source. -/
def validateOneResult (r : Json) : Except String (Option Json) :=
  match r with
  | .obj fs =>
    match (jsonLookup fs "testName").getD (.str "") with
    | .str s =>
      let name := strTrim s
      if name = "" then .ok none
      else
        match pyFloat ((jsonLookup fs "value").getD (.num 0)) with
        | none => .ok none
        | some x =>
          match (jsonLookup fs "unit").getD (.str "") with
          | .str u =>
            match (jsonLookup fs "status").getD (.str "normal") with
            | .str st0 =>
              let st := if ["normal", "high", "low", "critical"].contains (strLower st0)
                        then strLower st0 else "normal"
              match (jsonLookup fs "category").getD (.str "blood") with
              | .str c0 =>
                let c := if ["blood", "lipid", "liver", "kidney", "metabolic"].contains (strLower c0)
                         then strLower c0 else "blood"
                .ok (some (.obj [("testName", .str name), ("value", .num x),
                                 ("unit", .str (strTrim u)), ("status", .str st),
                                 ("category", .str c)]))
              | _ => .error "AttributeError"
            | _ => .error "AttributeError"
          | _ => .error "AttributeError"
    | _ => .error "AttributeError"
  | _ => .error "AttributeError"

/-- `Validators.validate_lab_results` (validators.py lines 62-101): the loop
over rows, appending the validated rows that survive. -/
def validateLabResults : List Json → Except String (List Json)
  | [] => .ok []
  | r :: rest =>
    match validateOneResult r with
    | .error e => .error e
    | .ok none => validateLabResults rest
    | .ok (some v) =>
      match validateLabResults rest with
      | .error e => .error e
      | .ok l => .ok (v :: l)

/-! ## Calendar model

`datetime.now() - timedelta(days=30*i)` and `strftime` are platform
operations; they are modelled by a Gregorian `Date` triple, a predecessor
function `prevDay` (so `- timedelta(days=n)` is `n` iterations), and label
projections for the `%Y-%m` / `%Y-%m-%d` format strings. -/

/-- A Gregorian calendar date. -/
structure Date where
  year : Int
  month : Nat
  day : Nat

/-- Gregorian leap-year rule (as Python's `calendar`/`datetime` use). -/
def isLeapYear (y : Int) : Bool :=
  y % 4 == 0 && (y % 100 != 0 || y % 400 == 0)

/-- Length of a month in the Gregorian calendar. -/
def daysInMonth (y : Int) (m : Nat) : Nat :=
  if m = 2 then (if isLeapYear y then 29 else 28)
  else if m = 4 ∨ m = 6 ∨ m = 9 ∨ m = 11 then 30
  else 31

/-- The previous calendar day. -/
def prevDay (d : Date) : Date :=
  if 1 < d.day then ⟨d.year, d.month, d.day - 1⟩
  else if 1 < d.month then ⟨d.year, d.month - 1, daysInMonth d.year (d.month - 1)⟩
  else ⟨d.year - 1, 12, 31⟩

/-- `datetime - timedelta(days = n)`. -/
def pySubDays (d : Date) (n : Nat) : Date := prevDay^[n] d

/-- The `strftime("%Y-%m")` month label, as its `(year, month)` content
(for the years the code handles, string comparison of `YYYY-MM` labels
coincides with lexicographic comparison of these pairs). -/
def fmtYM (d : Date) : Int × Nat := (d.year, d.month)

/-- Two-digit zero padding of a month or day number. -/
def pad2 (n : Nat) : String := if n < 10 then "0" ++ toString n else toString n

/-- The `strftime("%Y-%m")` label rendered as a string. -/
def ymStr (d : Date) : String := toString d.year ++ "-" ++ pad2 d.month

/-- The `strftime("%Y-%m-%d")` label rendered as a string. -/
def ymdStr (d : Date) : String := ymStr d ++ "-" ++ pad2 d.day

/-- Non-strict order on `%Y-%m` labels. -/
def labelLe (a b : Int × Nat) : Prop := a.1 < b.1 ∨ (a.1 = b.1 ∧ a.2 ≤ b.2)

/-- Strict order on `%Y-%m` labels ("strictly increasing" of the claim). -/
def labelLt (a b : Int × Nat) : Prop := a.1 < b.1 ∨ (a.1 = b.1 ∧ a.2 < b.2)

instance (a b : Int × Nat) : Decidable (labelLe a b) :=
  decidable_of_iff (a.1 < b.1 ∨ (a.1 = b.1 ∧ a.2 ≤ b.2)) Iff.rfl

instance (a b : Int × Nat) : Decidable (labelLt a b) :=
  decidable_of_iff (a.1 < b.1 ∨ (a.1 = b.1 ∧ a.2 < b.2)) Iff.rfl

/-! ## services/data_formatter.py — DataFormatter -/

/-- The nondeterministic inputs of `DataFormatter`: the stream of
`np.random.random()` draws, the `datetime.now()` date, and the ids produced
by `uuid.uuid4()` for the patient and for each result row. -/
structure Env where
  draws : Nat → ℚ
  now : Date
  patientId : String
  resultIds : Nat → String

/-- Shift the random stream past the first `k` draws. -/
def envShift (env : Env) (k : Nat) : Env :=
  { env with draws := fun n => env.draws (k + n) }

/-- Round half to even, as Python's `round` (ties are rare; all the claims
need is that the result is within 1/2 of the argument). -/
def roundHE (q : ℚ) : Int :=
  let n := ⌊q⌋
  let f := q - n
  if f < 1/2 then n
  else if 1/2 < f then n + 1
  else if n % 2 = 0 then n else n + 1

/-- Python `round(x, 1)`. -/
def round1 (q : ℚ) : ℚ := (roundHE (10 * q) : ℚ) / 10

/-- One synthetic trend point with its `%Y-%m` label as a `(year, month)`
pair. -/
structure TrendPoint where
  date : Int × Nat
  value : ℚ
  testName : String
  status : String

/-- Placeholder point for `List.getD` in statements. -/
def defPt : TrendPoint := ⟨(0, 0), 0, "", ""⟩

/-- Loop body of `_generate_trend_data` (data_formatter.py lines 106-123) at
loop iteration `k` (the source iterates `i = 11, …, 0`; iteration `k`
handles `i = 11 - k` and consumes draw `k`). -/
def mkTrendPoint (env : Env) (testName : String) (cv : ℚ) (k : Nat) : TrendPoint :=
  let variation := (env.draws k - 1/2) * (2/5) * cv
  let value := max 0 (cv + variation)
  let status := if 3/20 * cv < |variation| then (if 0 < variation then "high" else "low")
                else "normal"
  { date := fmtYM (pySubDays env.now (30 * (11 - k)))
    value := round1 value
    testName := testName
    status := status }

/-- The 12 points `_generate_trend_data` appends, oldest first. -/
def genTrendCore (env : Env) (testName : String) (cv : ℚ) : List TrendPoint :=
  (List.range 12).map (mkTrendPoint env testName cv)

/-- Numeric coercion performed implicitly by `variation * current_value`:
a non-numeric `current_value` raises `TypeError` out of
`_generate_trend_data`. -/
def Json.asNum : Json → Except String ℚ
  | .num q => .ok q
  | .bool b => .ok (if b then 1 else 0)
  | _ => .error "TypeError"

/-- `DataFormatter._generate_trend_data` (data_formatter.py lines 101-125).
`current_value` arrives as whatever object sat in the analyzed dict. -/
def generateTrendData (env : Env) (testName : String) (currentValue : Json) :
    Except String (List TrendPoint) :=
  match currentValue.asNum with
  | .error e => .error e
  | .ok cv => .ok (genTrendCore env testName cv)

/-- Embedded dict rendering of a trend point (`%Y-%m` as a string, as
`strftime` returns). -/
def TrendPoint.toJson (p : TrendPoint) : Json :=
  .obj [("date", .str (toString p.date.1 ++ "-" ++ pad2 p.date.2)),
        ("value", .num p.value), ("testName", .str p.testName),
        ("status", .str p.status)]

/-- Python `for x in v`: lists iterate elements, strings iterate 1-character
strings, dicts iterate keys; other values raise `TypeError`. -/
def pyIterList : Json → Except String (List Json)
  | .arr xs => .ok xs
  | .str s => .ok (s.toList.map (fun c => .str (String.mk [c])))
  | .obj fs => .ok (fs.map (fun p => .str p.1))
  | _ => .error "TypeError"

/-- `trend_data[test_name] = pts`: overwrite in place or append. -/
def upsert (acc : List (String × Json)) (k : String) (v : Json) :
    List (String × Json) :=
  if acc.any (fun p => p.1 == k) then
    acc.map (fun p => if p.1 == k then (k, v) else p)
  else acc ++ [(k, v)]

/-- `x is None` of the loop guard. -/
def Json.pyIsNull : Json → Bool
  | .null => true
  | _ => false

/-- The trend-generation loop of `format_for_frontend` (data_formatter.py
lines 22-28), threading the offset into the shared random stream. -/
def buildTrendLoop (env : Env) : List Json → Nat → List (String × Json) →
    Except String (List (String × Json))
  | [], _, acc => .ok acc
  | r :: rest, off, acc =>
    match pyDictGet r "testName" (.str "") with
    | .error e => .error e
    | .ok tn =>
      match tn with
      | .str s =>
        let key := removeSpaces (strLower s)
        if key = "" then buildTrendLoop env rest off acc
        else
          match pyDictGet r "value" .null with
          | .error e => .error e
          | .ok v =>
            if v.pyIsNull then buildTrendLoop env rest off acc
            else
              match generateTrendData (envShift env off) s v with
              | .error e => .error e
              | .ok pts =>
                  buildTrendLoop env rest (off + 12)
                    (upsert acc key (.arr (pts.map TrendPoint.toJson)))
      | _ => .error "AttributeError"

/-- The whole trend dict of `format_for_frontend`. -/
def buildTrendData (env : Env) (latest : Json) :
    Except String (List (String × Json)) :=
  match pyIterList latest with
  | .error e => .error e
  | .ok items => buildTrendLoop env items 0 []

/-- `DataFormatter._format_patient_info` (data_formatter.py lines 45-54):
six `.get` calls with defaults; `env.patientId` is the generated
`p_{uuid...}` fallback id and `ymdStr env.now` the `datetime.now()` default
date. -/
def formatPatientInfoE (env : Env) (p : Json) : Except String Json :=
  match p with
  | .obj fs =>
    .ok (.obj [("id", (jsonLookup fs "id").getD (.str env.patientId)),
               ("name", (jsonLookup fs "name").getD (.str "Unknown Patient")),
               ("age", (jsonLookup fs "age").getD .null),
               ("gender", (jsonLookup fs "gender").getD .null),
               ("dateOfBirth", (jsonLookup fs "dateOfBirth").getD .null),
               ("lastTestDate", (jsonLookup fs "lastTestDate").getD (.str (ymdStr env.now)))])
  | _ => .error "AttributeError"

/-- One iteration of the `_format_latest_results` loop (lines 60-75): the
whole row construction is wrapped in `try/except → continue`, so any raise
(`.get` on a non-dict, `float(...)` failure) drops the row. -/
def formatOneResult (env : Env) (k : Nat) (r : Json) : Option Json :=
  match r with
  | .obj fs =>
    match pyFloat ((jsonLookup fs "value").getD (.num 0)) with
    | none => none
    | some x =>
      some (.obj [("id", (jsonLookup fs "id").getD (.str (env.resultIds k))),
                  ("testName", (jsonLookup fs "testName").getD (.str "Unknown Test")),
                  ("value", .num x),
                  ("unit", (jsonLookup fs "unit").getD (.str "")),
                  ("referenceRange", (jsonLookup fs "referenceRange").getD
                     (.obj [("min", .num 0), ("max", .num 100)])),
                  ("status", (jsonLookup fs "status").getD (.str "normal")),
                  ("date", (jsonLookup fs "date").getD (.str (ymdStr env.now))),
                  ("category", (jsonLookup fs "category").getD (.str "blood"))])
  | _ => none

/-- The `_format_latest_results` loop, with the row index threading the
uuid stream. -/
def formatResultsLoop (env : Env) : Nat → List Json → List Json
  | _, [] => []
  | k, r :: rest =>
    match formatOneResult env k r with
    | some v => v :: formatResultsLoop env (k + 1) rest
    | none => formatResultsLoop env (k + 1) rest

/-- `DataFormatter._format_latest_results` (data_formatter.py lines 56-77):
the `for result in results` header itself raises on non-iterables. -/
def formatLatestResultsE (env : Env) (results : Json) : Except String (List Json) :=
  match pyIterList results with
  | .error e => .error e
  | .ok items => .ok (formatResultsLoop env 0 items)

/-- The fixed module default category table
(`DataFormatter._get_default_categories`, data_formatter.py lines 127-158). -/
def defaultCategories : List Json :=
  [.obj [("id", .str "blood"), ("name", .str "Complete Blood Count"),
         ("description", .str "Blood cell counts and basic blood chemistry"),
         ("color", .str "hsl(var(--chart-primary))"),
         ("tests", .arr [.str "hemoglobin", .str "hematocrit", .str "wbc", .str "platelets"])],
   .obj [("id", .str "lipid"), ("name", .str "Lipid Panel"),
         ("description", .str "Cholesterol and triglyceride levels"),
         ("color", .str "hsl(var(--chart-secondary))"),
         ("tests", .arr [.str "totalCholesterol", .str "hdl", .str "ldl", .str "triglycerides"])],
   .obj [("id", .str "liver"), ("name", .str "Liver Function"),
         ("description", .str "Liver enzyme and protein levels"),
         ("color", .str "hsl(var(--chart-tertiary))"),
         ("tests", .arr [.str "alt", .str "ast", .str "bilirubin", .str "albumin"])],
   .obj [("id", .str "kidney"), ("name", .str "Kidney Function"),
         ("description", .str "Kidney function markers"),
         ("color", .str "hsl(var(--chart-quaternary))"),
         ("tests", .arr [.str "creatinine", .str "bun", .str "gfr"])]]

/-- One iteration of the `_format_test_categories` loop (lines 85-97); the
per-item `try/except → continue` turns any raise into a skip. -/
def formatOneCategory (c : Json) : Option Json :=
  match c with
  | .obj fs =>
    some (.obj [("id", (jsonLookup fs "id").getD (.str "unknown")),
                ("name", (jsonLookup fs "name").getD (.str "Unknown Category")),
                ("description", (jsonLookup fs "description").getD (.str "")),
                ("color", (jsonLookup fs "color").getD (.str "hsl(var(--chart-primary))")),
                ("tests", (jsonLookup fs "tests").getD (.arr []))])
  | _ => none

/-- `DataFormatter._format_test_categories` (data_formatter.py lines 79-99):
falsy input or an all-skipped loop falls back to the default table. -/
def formatTestCategoriesE (categories : Json) : Except String (List Json) :=
  if categories.pyFalsy then .ok defaultCategories
  else
    match pyIterList categories with
    | .error e => .error e
    | .ok items =>
      let formatted := items.filterMap formatOneCategory
      .ok (if formatted.isEmpty then defaultCategories else formatted)

/-- `DataFormatter._get_empty_response` (data_formatter.py lines 160-174). -/
def emptyResponse (env : Env) : Json :=
  .obj [("patientInfo", .obj [("id", .str "empty"), ("name", .str "No Data"),
                              ("age", .null), ("gender", .null), ("dateOfBirth", .null),
                              ("lastTestDate", .str (ymdStr env.now))]),
        ("latestResults", .arr []),
        ("testCategories", .arr defaultCategories),
        ("trendData", .obj [])]

/-- Body of the `try` block of `format_for_frontend` (data_formatter.py
lines 17-39), in source evaluation order. -/
def formatForFrontendE (env : Env) (analyzed : Json) : Except String Json :=
  match pyDictGet analyzed "latestResults" (.arr []) with
  | .error e => .error e
  | .ok latest =>
    match buildTrendData env latest with
    | .error e => .error e
    | .ok trend =>
      match pyDictGet analyzed "patientInfo" (.obj []) with
      | .error e => .error e
      | .ok pinfo =>
        match formatPatientInfoE env pinfo with
        | .error e => .error e
        | .ok fpi =>
          match formatLatestResultsE env latest with
          | .error e => .error e
          | .ok fres =>
            match pyDictGet analyzed "testCategories" (.arr []) with
            | .error e => .error e
            | .ok cats =>
              match formatTestCategoriesE cats with
              | .error e => .error e
              | .ok fcats =>
                .ok (.obj [("patientInfo", fpi),
                           ("latestResults", .arr fres),
                           ("testCategories", .arr fcats),
                           ("trendData", .obj trend)])

/-- `DataFormatter.format_for_frontend` (data_formatter.py lines 15-43):
the `except Exception` handler replaces any failure by the empty record. -/
def formatForFrontend (env : Env) (analyzed : Json) : Json :=
  match formatForFrontendE env analyzed with
  | .ok r => r
  | .error _ => emptyResponse env

/-! ## services/llm_analyzer.py — OllamaAnalyzer -/

/-- Does `needle` occur as a contiguous run in `hay`? (Python `a in b` on
strings.) -/
def listStarts : List Char → List Char → Bool
  | [], _ => true
  | _ :: _, [] => false
  | a :: as, b :: bs => a == b && listStarts as bs

/-- Contiguous-substring test on character lists. -/
def hasSub (needle : List Char) : List Char → Bool
  | [] => needle.isEmpty
  | c :: rest => listStarts needle (c :: rest) || hasSub needle rest

/-- The regex `\{.*\}` with `re.DOTALL` (llm_analyzer.py lines 155-156):
greedy matching takes the first `{` and the last `}` after it; no such pair
means no match. -/
def extractJsonSpan (s : String) : Option String :=
  let cs := s.toList
  match cs.findIdx? (fun c => c == '{') with
  | none => none
  | some i =>
    match cs.reverse.findIdx? (fun c => c == '}') with
    | none => none
    | some rj =>
      let j := cs.length - 1 - rj
      if i < j then some (String.mk ((cs.drop i).take (j - i + 1)))
      else none

/-- `OllamaAnalyzer._validate_medical_structure` (llm_analyzer.py lines
176-179): `key in data` — dict key test, list membership, substring on
strings; `TypeError` on other values (`json.loads` of a `{...}` span in
fact always yields a dict, so the error branch is unreachable from real
parses). -/
def validateMedicalStructure (j : Json) : Except String Bool :=
  let req := ["patientInfo", "latestResults", "testCategories"]
  match j with
  | .obj fs => .ok (req.all (fun k => fs.any (fun p => p.1 == k)))
  | .arr xs => .ok (req.all (fun k => xs.any (fun x =>
      match x with
      | .str s => s == k
      | _ => false)))
  | .str s => .ok (req.all (fun k => hasSub k.toList s.toList))
  | _ => .error "TypeError"

/-- `OllamaAnalyzer._extract_medical_info_from_text` (llm_analyzer.py lines
181-203): the fixed heuristic placeholder; the argument is discarded. -/
def extractMedicalInfoFromText (_ : String) : Json :=
  .obj [("patientInfo", .obj [("id", .str "extracted_patient"),
                              ("name", .str "Patient Name"),
                              ("age", .null), ("gender", .null), ("dateOfBirth", .null),
                              ("lastTestDate", .str "2024-01-15")]),
        ("latestResults", .arr []),
        ("testCategories", .arr [.obj [("id", .str "blood"),
                                       ("name", .str "Complete Blood Count"),
                                       ("description", .str "Blood cell counts and basic blood chemistry"),
                                       ("color", .str "hsl(var(--chart-primary))"),
                                       ("tests", .arr [])]])]

/-- `OllamaAnalyzer._fallback_analysis` (llm_analyzer.py lines 205-218):
the static record used when the service is unavailable; the extracted
content is ignored. -/
def fallbackAnalysis (_ : Json) : Json :=
  .obj [("patientInfo", .obj [("id", .str "fallback_patient"),
                              ("name", .str "Unknown Patient"),
                              ("age", .null), ("gender", .null), ("dateOfBirth", .null),
                              ("lastTestDate", .str "2024-01-15")]),
        ("latestResults", .arr []),
        ("testCategories", .arr [])]

/-- `OllamaAnalyzer._parse_medical_response` (llm_analyzer.py lines
151-174), with `json.loads` supplied as `parse`; a failed parse
(`JSONDecodeError`) and a missing span both fall to the heuristic
extractor, and a `TypeError` from the structure check is caught by the
outer `except Exception`, which returns `_fallback_analysis({})`. -/
def parseMedicalResponse (parse : String → Option Json) (response : String) : Json :=
  match extractJsonSpan response with
  | some t =>
    match parse t with
    | some j =>
      match validateMedicalStructure j with
      | .ok true => j
      | .ok false => extractMedicalInfoFromText response
      | .error _ => fallbackAnalysis (.obj [])
    | none => extractMedicalInfoFromText response
  | none => extractMedicalInfoFromText response

/-- `OllamaAnalyzer.analyze_medical_data` (llm_analyzer.py lines 25-49).
`available` is the result of the availability probe `is_available`;
`response` is what `_generate_response` returned (it maps every transport
failure to the empty string, which the `if response:` guard sends to the
fallback).  Prompt construction is pure and feeds only the external call,
so it does not appear; its possible failures are caught by the same
`except` that routes to `_fallback_analysis`. -/
def analyzeMedicalData (parse : String → Option Json) (available : Bool)
    (response : String) (extracted : Json) : Json :=
  if available then
    if response ≠ "" then parseMedicalResponse parse response
    else fallbackAnalysis extracted
  else fallbackAnalysis extracted

/-- Executable strict-increase check on a label list (used to settle the
strict-monotonicity conjunct by computation). -/
def strictlyIncLabels : List (Int × Nat) → Bool
  | [] => true
  | [_] => true
  | a :: b :: t => decide (labelLt a b) && strictlyIncLabels (b :: t)

/-- A concrete environment: constant median draws, now = 2024-05-15. -/
def envA : Env := ⟨fun _ => 1/2, ⟨2024, 5, 15⟩, "p_gen", fun _ => "r_gen"⟩

/-- A concrete environment with now = 2024-01-31, where the 30-day step
from January 1 stays inside January. -/
def envCx : Env := ⟨fun _ => 1/2, ⟨2024, 1, 31⟩, "p_gen", fun _ => "r_gen"⟩

/-- The analyzed object of claim C10: valid patient info and one lab row
whose value is the string `"14.2"`. -/
def c10row : Json :=
  .obj [("id", .str "r1"), ("testName", .str "Hemoglobin"),
        ("value", .str "14.2"), ("unit", .str "g/dL")]

/-- The full analyzed input of claim C10. -/
def c10input : Json :=
  .obj [("patientInfo", .obj [("id", .str "p1"), ("name", .str "Jane Roe")]),
        ("latestResults", .arr [c10row]),
        ("testCategories", .arr [])]

/-! ## Theorems

One theorem per claim of the specification; counterexamples and witnesses
accompany the corrected and hypothesis-bearing ones. -/

/-- Specialization lemma: the age block on an object whose `age` value is
present and non-null. -/
theorem checkAge_eq (fs : List (String × Json)) (av : Json)
    (hav : (jsonLookup fs "age").getD .null = av) (hnn : av ≠ .null) :
    checkAge (.obj fs) =
      (match pyInt av with
       | none => .error "Age must be a number"
       | some a => if a < 0 ∨ 150 < a then .error "Invalid age" else .ok (.num a)) := by
  simp only [checkAge]
  rw [hav]
  cases av with
  | null => exact absurd rfl hnn
  | bool b => rfl
  | num q => rfl
  | str s => rfl
  | arr l => rfl
  | obj o => rfl

/-- Specialization lemma: the gender block on an object whose `gender`
value is the string `s`. -/
theorem checkGender_eq (fs : List (String × Json)) (s : String)
    (hgv : (jsonLookup fs "gender").getD (.str "") = .str s) :
    checkGender (.obj fs) =
      (if strTrim (strLower s) ≠ "" ∧
          ¬(["male", "female", "m", "f"].contains (strTrim (strLower s)) = true) then
        .error "Invalid gender"
       else .ok (if strTrim (strLower s) = "" then .null else .str (strTrim (strLower s)))) := by
  simp only [checkGender]
  rw [hgv]

/-- Claim C2, counterexample: for the patient info `{"age": 200}` (age
outside [0,150]) `validate_patient_info` raises
`ValidationError("Invalid age")` — it rejects the whole record instead of
producing a validated output with `age = null` as the claim states. -/
theorem c2_counterexample :
    validatePatientInfo (.obj [("age", .num 200)]) = .error "Invalid age" := by
  with_unfolding_all rfl

/-- Claim C2 (corrected): for every patient-info object whose name block
passes, an `age` value whose `int` coercion lands outside [0,150] makes
`validate_patient_info` raise `ValidationError("Invalid age")` (rejecting
the record, not the field), a non-coercible `age` raises
`ValidationError("Age must be a number")`, and an `age` whose coercion
lands inside [0,150] is kept (as the coerced integer) with the rest of the
record validated normally. -/
theorem c2_age_validation (fs : List (String × Json)) (nm : String)
    (hname : checkName (.obj fs) = .ok nm)
    (av : Json) (hav : (jsonLookup fs "age").getD .null = av) (hnn : av ≠ .null) :
    (∀ a : Int, pyInt av = some a →
        ((a < 0 ∨ 150 < a) → validatePatientInfo (.obj fs) = .error "Invalid age")
      ∧ (0 ≤ a → a ≤ 150 → ∀ gJ dobJ, checkGender (.obj fs) = .ok gJ →
          checkDob (.obj fs) = .ok dobJ →
          validatePatientInfo (.obj fs) =
            .ok (.obj [("name", .str nm), ("age", .num a), ("gender", gJ),
                       ("dateOfBirth", dobJ)])))
    ∧ (pyInt av = none → validatePatientInfo (.obj fs) = .error "Age must be a number") := by
  constructor
  · intro a hpa
    have hAge : checkAge (.obj fs) =
        (if a < 0 ∨ 150 < a then .error "Invalid age" else .ok (.num a)) := by
      rw [checkAge_eq fs av hav hnn, hpa]
    constructor
    · intro hrange
      rw [if_pos hrange] at hAge
      simp only [validatePatientInfo, hname, hAge]
    · intro h0 h150 gJ dobJ hg hd
      rw [if_neg (by omega)] at hAge
      simp only [validatePatientInfo, hname, hAge, hg, hd]
  · intro hpa
    have hAge : checkAge (.obj fs) = .error "Age must be a number" := by
      rw [checkAge_eq fs av hav hnn, hpa]
    simp only [validatePatientInfo, hname, hAge]

/-- Witness for C2 (corrected): the concrete record
`{"name": "Ann", "age": 30, "gender": "F", "dateOfBirth": "1990-01-02"}`
validates with age 30 kept, and `{"age": 200}` raises. -/
theorem c2_age_validation_witness :
    validatePatientInfo (.obj [("name", .str "Ann"), ("age", .num 30),
        ("gender", .str "F"), ("dateOfBirth", .str "1990-01-02")]) =
      .ok (.obj [("name", .str "Ann"), ("age", .num 30), ("gender", .str "f"),
                 ("dateOfBirth", .str "1990-01-02")])
    ∧ validatePatientInfo (.obj [("name", .str "Ann"), ("age", .num 200)]) =
        .error "Invalid age" := by
  constructor
  · exact ((c2_age_validation
      [("name", .str "Ann"), ("age", .num 30), ("gender", .str "F"),
       ("dateOfBirth", .str "1990-01-02")] "Ann"
      (by with_unfolding_all rfl) (.num 30) (by with_unfolding_all rfl)
      (fun h => Json.noConfusion h)).1 30 (by with_unfolding_all rfl)).2
      (by omega) (by omega) (.str "f") (.str "1990-01-02")
      (by with_unfolding_all rfl) (by with_unfolding_all rfl)
  · exact ((c2_age_validation
      [("name", .str "Ann"), ("age", .num 200)] "Ann"
      (by with_unfolding_all rfl) (.num 200) (by with_unfolding_all rfl)
      (fun h => Json.noConfusion h)).1 200 (by with_unfolding_all rfl)).1
      (by omega)

/-- Claim C4, counterexample: for the patient info `{"gender": "other"}`
(non-empty, outside the enum) `validate_patient_info` raises
`ValidationError("Invalid gender")` — it rejects the record instead of
producing a validated output with `gender = null` as the claim states. -/
theorem c4_counterexample :
    validatePatientInfo (.obj [("gender", .str "other")]) = .error "Invalid gender" := by
  with_unfolding_all rfl

/-- Claim C4 (corrected): for every patient-info object whose name and age
blocks pass, the validated gender is the lower-cased (and stripped) input
when that value is one of male/female/m/f, becomes null when the
lower-cased stripped value is empty, and any other non-empty gender makes
`validate_patient_info` raise `ValidationError("Invalid gender")`,
rejecting the record. -/
theorem c4_gender_validation (fs : List (String × Json)) (nm : String) (ageJ : Json)
    (hname : checkName (.obj fs) = .ok nm) (hage : checkAge (.obj fs) = .ok ageJ)
    (s : String) (hgv : (jsonLookup fs "gender").getD (.str "") = .str s) :
    (["male", "female", "m", "f"].contains (strTrim (strLower s)) = true →
      ∀ dobJ, checkDob (.obj fs) = .ok dobJ →
        validatePatientInfo (.obj fs) =
          .ok (.obj [("name", .str nm), ("age", ageJ),
                     ("gender", .str (strTrim (strLower s))), ("dateOfBirth", dobJ)]))
    ∧ (strTrim (strLower s) = "" →
      ∀ dobJ, checkDob (.obj fs) = .ok dobJ →
        validatePatientInfo (.obj fs) =
          .ok (.obj [("name", .str nm), ("age", ageJ), ("gender", .null),
                     ("dateOfBirth", dobJ)]))
    ∧ (strTrim (strLower s) ≠ "" →
      ["male", "female", "m", "f"].contains (strTrim (strLower s)) = false →
        validatePatientInfo (.obj fs) = .error "Invalid gender") := by
  refine ⟨?_, ?_, ?_⟩
  · intro hmem dobJ hd
    have hne : strTrim (strLower s) ≠ "" := by
      intro h
      rw [h] at hmem
      simp [List.contains] at hmem
    have hg : checkGender (.obj fs) = .ok (.str (strTrim (strLower s))) := by
      rw [checkGender_eq fs s hgv, if_neg (fun h => h.2 hmem), if_neg hne]
    simp only [validatePatientInfo, hname, hage, hg, hd]
  · intro hempty dobJ hd
    have hg : checkGender (.obj fs) = .ok .null := by
      rw [checkGender_eq fs s hgv, if_neg (fun h => h.1 hempty), if_pos hempty]
    simp only [validatePatientInfo, hname, hage, hg, hd]
  · intro hne hmem
    have hg : checkGender (.obj fs) = .error "Invalid gender" := by
      rw [checkGender_eq fs s hgv, if_pos ⟨hne, by rw [hmem]; simp⟩]
    simp only [validatePatientInfo, hname, hage, hg]

/-- Witness for C4 (corrected): `"MALE "` normalizes to `"male"` and is
kept; `"unknown"` raises. -/
theorem c4_gender_validation_witness :
    validatePatientInfo (.obj [("gender", .str "MALE ")]) =
      .ok (.obj [("name", .str ""), ("age", .null), ("gender", .str "male"),
                 ("dateOfBirth", .null)])
    ∧ validatePatientInfo (.obj [("gender", .str "unknown")]) =
        .error "Invalid gender" := by
  constructor
  · have h := (c4_gender_validation [("gender", .str "MALE ")] "" .null
      (by with_unfolding_all rfl) (by with_unfolding_all rfl) "MALE "
      (by with_unfolding_all rfl)).1
      (by with_unfolding_all rfl) .null (by with_unfolding_all rfl)
    have he : strTrim (strLower "MALE ") = "male" := by with_unfolding_all rfl
    rw [he] at h
    exact h
  · exact (c4_gender_validation [("gender", .str "unknown")] "" .null
      (by with_unfolding_all rfl) (by with_unfolding_all rfl) "unknown"
      (by with_unfolding_all rfl)).2.2
      (by with_unfolding_all decide) (by with_unfolding_all rfl)

/-- Characterization of one `validate_lab_results` iteration on a row whose
relevant fields are strings and whose value converts: the row is kept, with
status and category normalized against their enums. -/
theorem validateOneResult_eq (fs : List (String × Json))
    (s u st0 c0 : String) (x : ℚ)
    (hs : (jsonLookup fs "testName").getD (.str "") = .str s)
    (hname : strTrim s ≠ "")
    (hx : pyFloat ((jsonLookup fs "value").getD (.num 0)) = some x)
    (hu : (jsonLookup fs "unit").getD (.str "") = .str u)
    (hst : (jsonLookup fs "status").getD (.str "normal") = .str st0)
    (hc : (jsonLookup fs "category").getD (.str "blood") = .str c0) :
    validateOneResult (.obj fs) =
      .ok (some (.obj [("testName", .str (strTrim s)), ("value", .num x),
        ("unit", .str (strTrim u)),
        ("status", .str (if ["normal", "high", "low", "critical"].contains (strLower st0)
                         then strLower st0 else "normal")),
        ("category", .str (if ["blood", "lipid", "liver", "kidney", "metabolic"].contains (strLower c0)
                           then strLower c0 else "blood"))])) := by
  simp only [validateOneResult, hs, hx, hu, hst, hc, if_neg hname]

/-- Claim C6: in `validate_lab_results`, a row with an empty (stripped)
`testName` or a value `float` cannot convert is dropped from the output
list; a surviving row is appended, and its `status`/`category` are reset to
`normal`/`blood` when outside their enums. -/
theorem c6_lab_results_discipline (fs : List (String × Json)) (rest : List Json) :
    (∀ s, (jsonLookup fs "testName").getD (.str "") = .str s → strTrim s = "" →
      validateOneResult (.obj fs) = .ok none
      ∧ validateLabResults (.obj fs :: rest) = validateLabResults rest)
    ∧ (∀ s, (jsonLookup fs "testName").getD (.str "") = .str s → strTrim s ≠ "" →
        pyFloat ((jsonLookup fs "value").getD (.num 0)) = none →
      validateOneResult (.obj fs) = .ok none
      ∧ validateLabResults (.obj fs :: rest) = validateLabResults rest)
    ∧ (∀ v l, validateOneResult (.obj fs) = .ok (some v) →
        validateLabResults rest = .ok l →
        validateLabResults (.obj fs :: rest) = .ok (v :: l))
    ∧ (∀ s u st0 c0 x, (jsonLookup fs "testName").getD (.str "") = .str s →
        strTrim s ≠ "" →
        pyFloat ((jsonLookup fs "value").getD (.num 0)) = some x →
        (jsonLookup fs "unit").getD (.str "") = .str u →
        (jsonLookup fs "status").getD (.str "normal") = .str st0 →
        (jsonLookup fs "category").getD (.str "blood") = .str c0 →
        ["normal", "high", "low", "critical"].contains (strLower st0) = false →
        ∀ v, validateOneResult (.obj fs) = .ok (some v) →
          v.getField "status" = some (.str "normal"))
    ∧ (∀ s u st0 c0 x, (jsonLookup fs "testName").getD (.str "") = .str s →
        strTrim s ≠ "" →
        pyFloat ((jsonLookup fs "value").getD (.num 0)) = some x →
        (jsonLookup fs "unit").getD (.str "") = .str u →
        (jsonLookup fs "status").getD (.str "normal") = .str st0 →
        (jsonLookup fs "category").getD (.str "blood") = .str c0 →
        ["blood", "lipid", "liver", "kidney", "metabolic"].contains (strLower c0) = false →
        ∀ v, validateOneResult (.obj fs) = .ok (some v) →
          v.getField "category" = some (.str "blood")) := by
  refine ⟨?_, ?_, ?_, ?_, ?_⟩
  · intro s hs htrim
    have h1 : validateOneResult (.obj fs) = .ok none := by
      simp only [validateOneResult, hs, if_pos htrim]
    exact ⟨h1, by simp only [validateLabResults, h1]⟩
  · intro s hs htrim hfl
    have h1 : validateOneResult (.obj fs) = .ok none := by
      simp only [validateOneResult, hs, if_neg htrim, hfl]
    exact ⟨h1, by simp only [validateLabResults, h1]⟩
  · intro v l h1 h2
    simp only [validateLabResults, h1, h2]
  · intro s u st0 c0 x hs htrim hx hu hst hc hmem v hv
    rw [validateOneResult_eq fs s u st0 c0 x hs htrim hx hu hst hc] at hv
    injection hv with hv
    injection hv with hv
    subst hv
    rw [hmem]
    simp [Json.getField, jsonLookup, List.find?]
  · intro s u st0 c0 x hs htrim hx hu hst hc hmem v hv
    rw [validateOneResult_eq fs s u st0 c0 x hs htrim hx hu hst hc] at hv
    injection hv with hv
    injection hv with hv
    subst hv
    rw [hmem]
    simp [Json.getField, jsonLookup, List.find?]

/-- Witness for C6: a row with whitespace name is dropped, a row with value
`"n/a"` is dropped, and a row with status `"WEIRD"` and category
`"unknown"` is kept reset to `normal`/`blood`. -/
theorem c6_lab_results_discipline_witness :
    validateLabResults [.obj [("testName", .str "  ")],
        .obj [("testName", .str "Iron"), ("value", .str "n/a")]] = validateLabResults []
    ∧ validateLabResults [.obj [("testName", .str "Glucose"), ("value", .str "90"),
        ("status", .str "WEIRD"), ("category", .str "unknown")]] =
      .ok [.obj [("testName", .str "Glucose"), ("value", .num 90), ("unit", .str ""),
                 ("status", .str "normal"), ("category", .str "blood")]] := by
  constructor
  · have h1 := ((c6_lab_results_discipline [("testName", .str "  ")]
      [.obj [("testName", .str "Iron"), ("value", .str "n/a")]]).1 "  "
      (by with_unfolding_all rfl) (by with_unfolding_all rfl)).2
    have h2 := ((c6_lab_results_discipline
      [("testName", .str "Iron"), ("value", .str "n/a")] []).2.1 "Iron"
      (by with_unfolding_all rfl) (by with_unfolding_all decide)
      (by with_unfolding_all rfl)).2
    rw [h1, h2]
  · have hrow := validateOneResult_eq
      [("testName", .str "Glucose"), ("value", .str "90"),
       ("status", .str "WEIRD"), ("category", .str "unknown")]
      "Glucose" "" "WEIRD" "unknown" 90
      (by with_unfolding_all rfl) (by with_unfolding_all decide)
      (by with_unfolding_all rfl) (by with_unfolding_all rfl)
      (by with_unfolding_all rfl) (by with_unfolding_all rfl)
    have h3 := (c6_lab_results_discipline
      [("testName", .str "Glucose"), ("value", .str "90"),
       ("status", .str "WEIRD"), ("category", .str "unknown")] []).2.2.1
      _ [] hrow rfl
    rw [h3]
    have : strTrim "Glucose" = "Glucose" := by with_unfolding_all rfl
    rw [this]
    have : strTrim "" = "" := by with_unfolding_all rfl
    rw [this]
    have : strLower "WEIRD" = "weird" := by with_unfolding_all rfl
    rw [this]
    have : strLower "unknown" = "unknown" := by with_unfolding_all rfl
    rw [this]
    have h4 : (["normal", "high", "low", "critical"].contains "weird") = false := by
      with_unfolding_all rfl
    have h5 : (["blood", "lipid", "liver", "kidney", "metabolic"].contains "unknown") = false := by
      with_unfolding_all rfl
    rw [h4, h5]
    simp

/-- Claim C8: whenever no `{...}` span exists in the response, or the span
does not parse, or the parsed object lacks one of the three required keys,
`_parse_medical_response` returns the fixed heuristic placeholder
(`extracted_patient`, empty results, one default blood category),
discarding the response content. -/
theorem c8_heuristic_placeholder (parse : String → Option Json) (s : String)
    (h : extractJsonSpan s = none
      ∨ (∃ t, extractJsonSpan s = some t ∧ parse t = none)
      ∨ (∃ t fs, extractJsonSpan s = some t ∧ parse t = some (.obj fs)
           ∧ (["patientInfo", "latestResults", "testCategories"].all
                (fun k => fs.any (fun p => p.1 == k))) = false)) :
    parseMedicalResponse parse s =
      .obj [("patientInfo", .obj [("id", .str "extracted_patient"),
                                  ("name", .str "Patient Name"),
                                  ("age", .null), ("gender", .null), ("dateOfBirth", .null),
                                  ("lastTestDate", .str "2024-01-15")]),
            ("latestResults", .arr []),
            ("testCategories", .arr [.obj [("id", .str "blood"),
                                           ("name", .str "Complete Blood Count"),
                                           ("description", .str "Blood cell counts and basic blood chemistry"),
                                           ("color", .str "hsl(var(--chart-primary))"),
                                           ("tests", .arr [])]])] := by
  rcases h with hnone | ⟨t, hspan, hparse⟩ | ⟨t, fs, hspan, hparse, hkeys⟩
  · simp only [parseMedicalResponse, hnone]
    rfl
  · simp only [parseMedicalResponse, hspan, hparse]
    rfl
  · have hval : validateMedicalStructure (.obj fs) = .ok false := by
      simp only [validateMedicalStructure, hkeys]
    simp only [parseMedicalResponse, hspan, hparse, hval]
    rfl

/-- Witness for C8: a prose response with no braces, a response whose span
is not valid JSON (modelled by a parse returning `none`), and a span
parsing to an object without the keys all yield the placeholder. -/
theorem c8_heuristic_placeholder_witness :
    parseMedicalResponse (fun _ => none) "the model replied in prose" =
      .obj [("patientInfo", .obj [("id", .str "extracted_patient"),
                                  ("name", .str "Patient Name"),
                                  ("age", .null), ("gender", .null), ("dateOfBirth", .null),
                                  ("lastTestDate", .str "2024-01-15")]),
            ("latestResults", .arr []),
            ("testCategories", .arr [.obj [("id", .str "blood"),
                                           ("name", .str "Complete Blood Count"),
                                           ("description", .str "Blood cell counts and basic blood chemistry"),
                                           ("color", .str "hsl(var(--chart-primary))"),
                                           ("tests", .arr [])]])]
    ∧ parseMedicalResponse (fun _ => some (.obj [("patientInfo", .obj [])])) "x {patientInfo: 1} y" =
      .obj [("patientInfo", .obj [("id", .str "extracted_patient"),
                                  ("name", .str "Patient Name"),
                                  ("age", .null), ("gender", .null), ("dateOfBirth", .null),
                                  ("lastTestDate", .str "2024-01-15")]),
            ("latestResults", .arr []),
            ("testCategories", .arr [.obj [("id", .str "blood"),
                                           ("name", .str "Complete Blood Count"),
                                           ("description", .str "Blood cell counts and basic blood chemistry"),
                                           ("color", .str "hsl(var(--chart-primary))"),
                                           ("tests", .arr [])]])] := by
  constructor
  · exact c8_heuristic_placeholder (fun _ => none) "the model replied in prose"
      (Or.inl (by with_unfolding_all rfl))
  · exact c8_heuristic_placeholder (fun _ => some (.obj [("patientInfo", .obj [])]))
      "x {patientInfo: 1} y"
      (Or.inr (Or.inr ⟨"{patientInfo: 1}", [("patientInfo", .obj [])],
        by with_unfolding_all rfl, rfl, by with_unfolding_all rfl⟩))

/-- Claim C9: when the availability probe fails, the analyzed record is the
static fallback and the formatted output has `patientInfo.id =
"fallback_patient"`, empty `latestResults` and an empty `trendData`
mapping, for every extracted content, response text and random
environment. -/
theorem c9_fallback_pipeline (env : Env) (parse : String → Option Json)
    (response : String) (extracted : Json) :
    ((formatForFrontend env (analyzeMedicalData parse false response extracted)).getField
        "patientInfo").map (fun p => p.getField "id") =
      some (some (.str "fallback_patient"))
    ∧ (formatForFrontend env (analyzeMedicalData parse false response extracted)).getField
        "latestResults" = some (.arr [])
    ∧ (formatForFrontend env (analyzeMedicalData parse false response extracted)).getField
        "trendData" = some (.obj []) := by
  refine ⟨?_, ?_, ?_⟩ <;> with_unfolding_all rfl

/-- The successful branch of `format_for_frontend` always builds the
four-key record shape. -/
theorem formatE_ok_topKeys (env : Env) (a r : Json)
    (h : formatForFrontendE env a = .ok r) :
    r.topKeys = ["patientInfo", "latestResults", "testCategories", "trendData"] := by
  unfold formatForFrontendE at h
  repeat' split at h
  any_goals exact Except.noConfusion h
  injection h with h
  subst h
  rfl

/-- Claim C1: the pipeline is total — `analyze_medical_data` and
`format_for_frontend` are embedded as total functions (every internal raise
is caught by the handlers embedded in their definitions), and for every
analyzed object, every raw response (malformed or not), every availability
outcome and every environment, the formatted result carries exactly the
four top-level CanonicalRecord keys. -/
theorem c1_pipeline_total (env : Env) (parse : String → Option Json)
    (available : Bool) (response : String) (extracted analyzed : Json) :
    (formatForFrontend env analyzed).topKeys =
      ["patientInfo", "latestResults", "testCategories", "trendData"]
    ∧ (formatForFrontend env
        (analyzeMedicalData parse available response extracted)).topKeys =
      ["patientInfo", "latestResults", "testCategories", "trendData"] := by
  have key : ∀ b : Json, (formatForFrontend env b).topKeys =
      ["patientInfo", "latestResults", "testCategories", "trendData"] := by
    intro b
    unfold formatForFrontend
    cases hE : formatForFrontendE env b with
    | ok r => exact formatE_ok_topKeys env b r hE
    | error e => rfl
  exact ⟨key analyzed, key _⟩

/-- Categories produced by `_format_test_categories` are never the empty
list: both fallbacks return the default table. -/
theorem formatTestCategoriesE_ok_ne_nil (c : Json) (l : List Json)
    (h : formatTestCategoriesE c = .ok l) : l ≠ [] := by
  unfold formatTestCategoriesE at h
  split at h
  · injection h with h
    subst h
    simp [defaultCategories]
  · split at h
    · exact Except.noConfusion h
    · injection h with h
      subst h
      split
      · simp [defaultCategories]
      · next hne =>
          intro hcontra
          rw [hcontra] at hne
          exact hne rfl

/-- Claim C5: the `testCategories` of every formatted output is a non-empty
sequence, and when the analyzed object supplies no categories (missing key
or falsy value) it is exactly the default 4-category table — also when
formatting failed and the empty record was substituted. -/
theorem c5_categories_never_empty (env : Env) (analyzed : Json) :
    (∃ l, (formatForFrontend env analyzed).getField "testCategories" = some (.arr l)
       ∧ l ≠ [])
    ∧ (∀ fs, analyzed = .obj fs →
        ((jsonLookup fs "testCategories").getD (.arr [])).pyFalsy = true →
        (formatForFrontend env analyzed).getField "testCategories" =
          some (.arr defaultCategories)) := by
  constructor
  · unfold formatForFrontend
    cases hE : formatForFrontendE env analyzed with
    | error e =>
      exact ⟨defaultCategories, rfl, by simp [defaultCategories]⟩
    | ok r =>
      unfold formatForFrontendE at hE
      repeat' split at hE
      any_goals exact Except.noConfusion hE
      rename_i cats hcats fcats hfcats
      injection hE with hE
      subst hE
      exact ⟨fcats, rfl, formatTestCategoriesE_ok_ne_nil _ _ hfcats⟩
  · intro fs hfs hfalsy
    subst hfs
    unfold formatForFrontend
    cases hE : formatForFrontendE env (.obj fs) with
    | error e => rfl
    | ok r =>
      unfold formatForFrontendE at hE
      repeat' split at hE
      any_goals exact Except.noConfusion hE
      rename_i sGet cats hcats sF fcats hfcats
      injection hE with hE
      subst hE
      have hc2 : cats = (jsonLookup fs "testCategories").getD (.arr []) := by
        simp only [pyDictGet] at hcats
        injection hcats with hcats
        exact hcats.symm
      subst hc2
      unfold formatTestCategoriesE at hfcats
      rw [if_pos hfalsy] at hfcats
      injection hfcats with hfcats
      subst hfcats
      rfl

/-- The Boolean checker decides `Chain' labelLt`. -/
theorem chain_labelLt_iff : ∀ l : List (Int × Nat),
    List.Chain' labelLt l ↔ strictlyIncLabels l = true
  | [] => by simp [strictlyIncLabels]
  | [a] => by simp [strictlyIncLabels]
  | a :: b :: t => by
      rw [List.chain'_cons, strictlyIncLabels, Bool.and_eq_true, decide_eq_true_eq]
      exact and_congr Iff.rfl (chain_labelLt_iff (b :: t))

set_option maxRecDepth 8000 in
/-- Claim C3, counterexample: with now = 2024-01-31 the last two of the 12
generated points both carry the month label (2024, 1) — the `YYYY-MM`
labels produced by 30-day steps are not strictly increasing for every
choice of now. -/
theorem c3_counterexample :
    ¬ List.Chain' labelLt ((genTrendCore envCx "Hemoglobin" (142/10)).map TrendPoint.date) := by
  rw [chain_labelLt_iff]
  with_unfolding_all decide

/-- Stepping one day back never increases the month label. -/
theorem label_prevDay_le (d : Date) : labelLe (fmtYM (prevDay d)) (fmtYM d) := by
  unfold prevDay
  split
  · exact Or.inr ⟨rfl, le_refl _⟩
  · split
    · exact Or.inr ⟨rfl, Nat.sub_le _ _⟩
    · exact Or.inl (by simp only [fmtYM]; omega)

/-- The label order is transitive. -/
theorem labelLe_trans {a b c : Int × Nat} (h1 : labelLe a b) (h2 : labelLe b c) :
    labelLe a c := by
  unfold labelLe at *
  omega

/-- Going any number of days back never increases the month label. -/
theorem label_subDays_le (n : Nat) (d : Date) :
    labelLe (fmtYM (pySubDays d n)) (fmtYM d) := by
  induction n generalizing d with
  | zero => exact Or.inr ⟨rfl, le_refl _⟩
  | succ n ih =>
      have h1 : pySubDays d (n + 1) = pySubDays (prevDay d) n :=
        Function.iterate_succ_apply prevDay n d
      rw [h1]
      exact labelLe_trans (ih (prevDay d)) (label_prevDay_le d)

/-- Subtracting days composes. -/
theorem pySubDays_add (d : Date) (a b : Nat) :
    pySubDays d (a + b) = pySubDays (pySubDays d b) a :=
  Function.iterate_add_apply prevDay a b d

/-- Claim C3 (corrected): for every environment (any now, any draws),
`_generate_trend_data` on a numeric value produces exactly 12 points,
oldest first — point `k` is dated 30·(11-k) days before now — and the
`YYYY-MM` labels are non-decreasing; they are not strictly increasing in
general (see the counterexample: two consecutive points can fall in the
same calendar month), and the 30-day steps cover about 11 months rather
than the trailing 12 calendar months. -/
theorem c3_trend_dates (env : Env) (nm : String) (cv : ℚ) :
    generateTrendData env nm (.num cv) = .ok (genTrendCore env nm cv)
    ∧ (genTrendCore env nm cv).length = 12
    ∧ (genTrendCore env nm cv).map TrendPoint.date =
        (List.range 12).map (fun k => fmtYM (pySubDays env.now (30 * (11 - k))))
    ∧ List.Chain' labelLe ((genTrendCore env nm cv).map TrendPoint.date) := by
  have hmap : (genTrendCore env nm cv).map TrendPoint.date =
      (List.range 12).map (fun k => fmtYM (pySubDays env.now (30 * (11 - k)))) := by
    unfold genTrendCore
    rw [List.map_map]
    rfl
  refine ⟨rfl, by simp [genTrendCore], hmap, ?_⟩
  rw [hmap]
  refine (List.chain'_map _).mpr ?_
  have h12 : (12 : Nat) = Nat.succ 11 := rfl
  rw [h12, List.chain'_range_succ]
  intro m hm
  have h30 : 30 * (11 - m) = 30 + 30 * (11 - (m + 1)) := by omega
  rw [h30, pySubDays_add]
  exact label_subDays_le 30 (pySubDays env.now (30 * (11 - (m + 1))))

/-- Half-even rounding is within 1/2 of its argument. -/
theorem roundHE_abs_le (q : ℚ) : |(roundHE q : ℚ) - q| ≤ 1/2 := by
  unfold roundHE
  dsimp only
  have h0 : (0 : ℚ) ≤ q - ⌊q⌋ := by
    have := Int.floor_le q
    linarith
  have h1 : q - ⌊q⌋ < 1 := by
    have := Int.lt_floor_add_one q
    linarith
  split_ifs with ha hb hc
  · rw [abs_sub_comm, abs_of_nonneg h0]
    linarith
  · push_cast
    rw [abs_of_nonneg (by linarith)]
    linarith
  · rw [abs_sub_comm, abs_of_nonneg h0]
    linarith
  · push_cast
    rw [abs_of_nonneg (by linarith)]
    linarith

/-- Half-even rounding preserves non-negativity. -/
theorem roundHE_nonneg (q : ℚ) (h : 0 ≤ q) : 0 ≤ roundHE q := by
  unfold roundHE
  dsimp only
  have h0 : 0 ≤ ⌊q⌋ := Int.floor_nonneg.mpr h
  split_ifs <;> omega

/-- `round(x, 1)` is within 1/20 of its argument. -/
theorem round1_abs_le (q : ℚ) : |round1 q - q| ≤ 1/20 := by
  unfold round1
  have h := roundHE_abs_le (10 * q)
  have heq : (roundHE (10 * q) : ℚ) / 10 - q = ((roundHE (10 * q) : ℚ) - 10 * q) / 10 := by
    ring
  rw [heq, abs_div, abs_of_nonneg (by norm_num : (0:ℚ) ≤ 10)]
  rw [div_le_iff₀ (by norm_num : (0:ℚ) < 10)]
  linarith

/-- `round(x, 1)` preserves non-negativity. -/
theorem round1_nonneg (q : ℚ) (h : 0 ≤ q) : 0 ≤ round1 q := by
  unfold round1
  have := roundHE_nonneg (10 * q) (by linarith)
  exact div_nonneg (by exact_mod_cast this) (by norm_num)

/-- The element of the generated trend list at position `k < 12`. -/
theorem genTrendCore_getD (env : Env) (nm : String) (cv : ℚ) (k : Nat) (hk : k < 12) :
    (genTrendCore env nm cv).getD k defPt = mkTrendPoint env nm cv k := by
  unfold genTrendCore
  rw [List.getD_eq_getElem?_getD, List.getElem?_map, List.getElem?_range hk]
  rfl

/-- The source's status computation (threshold on `abs(variation)` then the
sign) agrees with the spec's two-sided form when `current_value ≥ 0`. -/
theorem status_forms_agree (cv var : ℚ) (hcv : 0 ≤ cv) :
    (if 3/20 * cv < |var| then (if 0 < var then "high" else "low") else "normal") =
      (if 3/20 * cv < var then "high"
       else if var < -(3/20 * cv) then "low" else "normal") := by
  have ht : (0 : ℚ) ≤ 3/20 * cv := by linarith
  by_cases h1 : 3/20 * cv < var
  · rw [if_pos (lt_of_lt_of_le h1 (le_abs_self var)),
        if_pos (lt_of_le_of_lt ht h1), if_pos h1]
  · by_cases h2 : var < -(3/20 * cv)
    · have habs : 3/20 * cv < |var| := by
        rw [abs_of_nonpos (by linarith)]
        linarith
      have hnpos : ¬ (0 < var) := by linarith
      rw [if_pos habs, if_neg hnpos, if_neg h1, if_pos h2]
    · have habs : ¬ (3/20 * cv < |var|) := by
        rw [not_lt, abs_le]
        constructor <;> linarith
      rw [if_neg habs, if_neg h1, if_neg h2]

/-- Claim C7: for `current_value ≥ 0` and draws in [0,1),
`_generate_trend_data` produces exactly 12 points; each point's value is
the rounding of `max(0, cv + variation)`, is non-negative, and is within
`0.2·cv` of `cv` up to the 1-decimal rounding (≤ cv/5 + 1/20), and its
status is `high`/`low`/`normal` by the ±0.15·cv thresholds on the
variation. -/
theorem c7_trend_values (env : Env) (nm : String) (cv : ℚ)
    (hcv : 0 ≤ cv) (hdr : ∀ n, 0 ≤ env.draws n ∧ env.draws n < 1) :
    generateTrendData env nm (.num cv) = .ok (genTrendCore env nm cv)
    ∧ (genTrendCore env nm cv).length = 12
    ∧ ∀ k, k < 12 →
        ((genTrendCore env nm cv).getD k defPt).value =
          round1 (max 0 (cv + (env.draws k - 1/2) * (2/5) * cv))
        ∧ 0 ≤ ((genTrendCore env nm cv).getD k defPt).value
        ∧ |((genTrendCore env nm cv).getD k defPt).value - cv| ≤ cv/5 + 1/20
        ∧ ((genTrendCore env nm cv).getD k defPt).status =
            (if 3/20 * cv < (env.draws k - 1/2) * (2/5) * cv then "high"
             else if (env.draws k - 1/2) * (2/5) * cv < -(3/20 * cv) then "low"
             else "normal") := by
  refine ⟨rfl, by simp [genTrendCore], ?_⟩
  intro k hk
  rw [genTrendCore_getD env nm cv k hk]
  set d := env.draws k with hd
  set var := (d - 1/2) * (2/5) * cv with hvar
  have hdk := hdr k
  have habs_d : |d - 1/2| ≤ 1/2 := by
    rw [abs_le]
    constructor <;> [linarith [hdk.1]; linarith [hdk.2]]
  have habs_var : |var| ≤ cv/5 := by
    rw [hvar, abs_mul, abs_mul, abs_of_nonneg hcv,
        (by norm_num : |(2:ℚ)/5| = 2/5)]
    nlinarith [abs_nonneg (d - 1/2)]
  have hvar_lb : -(cv/5) ≤ var := neg_le_of_abs_le habs_var
  have hsum_nonneg : 0 ≤ cv + var := by linarith
  have hmax : max 0 (cv + var) = cv + var := max_eq_right hsum_nonneg
  refine ⟨rfl, ?_, ?_, ?_⟩
  · exact round1_nonneg _ (le_max_left 0 (cv + var))
  · have hr := round1_abs_le (max 0 (cv + var))
    rw [hmax] at hr
    have htriangle := abs_sub_le (round1 (max 0 (cv + var))) (cv + var) cv
    rw [hmax] at htriangle
    have hv2 : |cv + var - cv| = |var| := by ring_nf
    calc |(mkTrendPoint env nm cv k).value - cv|
        = |round1 (max 0 (cv + var)) - cv| := rfl
      _ ≤ |round1 (max 0 (cv + var)) - (cv + var)| + |cv + var - cv| := by
          rw [hmax] at *
          exact htriangle
      _ ≤ 1/20 + cv/5 := by
          rw [hmax, hv2]
          exact add_le_add hr habs_var
      _ = cv/5 + 1/20 := by ring
  · exact status_forms_agree cv var hcv

/-- Witness for C7: with median draws and cv = 10, the first point's value
is non-negative and within bounds, and its status is `normal`. -/
theorem c7_trend_values_witness :
    0 ≤ ((genTrendCore envA "Hb" 10).getD 0 defPt).value
    ∧ ((genTrendCore envA "Hb" 10).getD 0 defPt).status = "normal" := by
  have h := c7_trend_values envA "Hb" 10 (by norm_num)
    (fun n => ⟨by norm_num [envA], by norm_num [envA]⟩)
  have h0 := h.2.2 0 (by norm_num)
  refine ⟨h0.2.1, ?_⟩
  rw [h0.2.2.2]
  norm_num [envA]

/-- Witness for C5: an analyzed object with no `testCategories` key gets
exactly the default table. -/
theorem c5_categories_never_empty_witness :
    (formatForFrontend envA (.obj [])).getField "testCategories" =
      some (.arr defaultCategories) :=
  (c5_categories_never_empty envA (.obj [])).2 [] rfl (by with_unfolding_all rfl)

/-- Claim C10: on an analyzed input with valid patient info and one row
whose value is the string `"14.2"` (non-null, non-numeric type, yet
float-parsable), the trend loop raises (`variation * current_value` is a
`TypeError` on a string) before any per-row clamping can happen, and
`format_for_frontend` replaces the whole output by the empty record (id
`empty`, name `No Data`, empty results, empty trend map, default
categories) — even though `_format_latest_results` alone would have kept
that row with value 14.2. -/
theorem c10_string_value_collapses :
    formatForFrontend envA c10input = emptyResponse envA
    ∧ (formatForFrontend envA c10input).getField "latestResults" = some (.arr [])
    ∧ generateTrendData envA "Hemoglobin" (.str "14.2") = .error "TypeError"
    ∧ formatLatestResultsE envA (.arr [c10row]) =
        .ok [.obj [("id", .str "r1"), ("testName", .str "Hemoglobin"),
                   ("value", .num (71/5)), ("unit", .str "g/dL"),
                   ("referenceRange", .obj [("min", .num 0), ("max", .num 100)]),
                   ("status", .str "normal"), ("date", .str "2024-05-15"),
                   ("category", .str "blood")]] := by
  refine ⟨?_, ?_, ?_, ?_⟩ <;> with_unfolding_all rfl

end MedLab
